import Mathlib

/- Shallow embedding of the object-key resolution and download-state
coordination core of the obsidian-plugin-s3-link repository:
the retrieval client (src/network/client.ts), the image resolver
(ImageResolver.resolveHtmlElement) and the download coordinator they use.

Remote interactions are parameterised by an explicit outcome value (the
response the storage backend would produce), and every client operation
additionally returns the trace of coordinator calls and network requests it
performs, in program order, so that ordering and frame properties can be
stated about a single call. -/

/-- Download lifecycle states.
Modelled from the spec: the DownloadManager (DownloadCoordinator) source file
is not under src/; section 4.4 gives the states QUEUED, RUNNING, COMPLETED,
ERROR. -/
inductive DownloadState where
  | QUEUED
  | RUNNING
  | COMPLETED
  | ERROR
deriving DecidableEq

/-- A download record identity: (object key, version id). -/
abbrev DownloadKey := String × String

/-- The coordinator registry: one record per (key, versionId), insertion
ordered. -/
abbrev Registry := List (DownloadKey × DownloadState)

/-- First-match lookup of a record's state. -/
def lookupState : Registry → DownloadKey → Option DownloadState
  | [], _ => none
  | (k, s) :: rest, q => if k = q then some s else lookupState rest q

/-- COMPLETED and ERROR are the terminal states. -/
def isTerminal : DownloadState → Bool
  | .COMPLETED => true
  | .ERROR => true
  | _ => false

/-- Modelled from the spec: registerAttempt / addNewDownload creates a new
record in state QUEUED; if a record for the identity already exists this is a
re-entrant no-op (section 4.4). -/
def addNewDownload (r : Registry) (k : DownloadKey) : Registry :=
  match lookupState r k with
  | some _ => r
  | none => r ++ [(k, .QUEUED)]

/-- Apply a state transformer to the record with the given identity. -/
def updateState : Registry → DownloadKey → (DownloadState → DownloadState) → Registry
  | [], _, _ => []
  | (k0, s0) :: rest, k, f =>
    (if k0 = k then (k0, f s0) else (k0, s0)) :: updateState rest k f

/-- Modelled from the spec: markRunning / setRunningState transitions
QUEUED to RUNNING and is benign otherwise (section 4.4). -/
def setRunningState (r : Registry) (k : DownloadKey) : Registry :=
  updateState r k (fun s => match s with | .QUEUED => .RUNNING | s => s)

/-- Modelled from the spec: markCompleted / setCompletedState transitions
RUNNING to COMPLETED (section 4.4). -/
def setCompletedState (r : Registry) (k : DownloadKey) : Registry :=
  updateState r k (fun s => match s with | .RUNNING => .COMPLETED | s => s)

/-- Modelled from the spec: markError / setErrorState transitions any
non-terminal state to ERROR (section 4.4). -/
def setErrorState (r : Registry) (k : DownloadKey) : Registry :=
  updateState r k (fun s => if isTerminal s then s else .ERROR)

/-- One observable step of a client operation: a coordinator call or an
outgoing network request. -/
inductive Ev where
  | dmAdd (k : DownloadKey)
  | dmRunning (k : DownloadKey)
  | dmCompleted (k : DownloadKey)
  | dmError (k : DownloadKey)
  | listRequest (objectKey : String)
  | getRequest (objectKey : String)
  | signRequest (objectKey : String)
deriving DecidableEq

/-- Effect of one event on the coordinator registry; network requests do not
touch the registry. -/
def applyEv (r : Registry) : Ev → Registry
  | .dmAdd k => addNewDownload r k
  | .dmRunning k => setRunningState r k
  | .dmCompleted k => setCompletedState r k
  | .dmError k => setErrorState r k
  | .listRequest _ => r
  | .getRequest _ => r
  | .signRequest _ => r

/-- Effect of a whole trace on the registry, in order. -/
def applyTrace (r : Registry) (tr : List Ev) : Registry :=
  tr.foldl applyEv r

/-- Whether an event is a coordinator (DownloadManager) interaction. -/
def isDmEv : Ev → Bool
  | .dmAdd _ => true
  | .dmRunning _ => true
  | .dmCompleted _ => true
  | .dmError _ => true
  | _ => false

/-- One entry of a ListObjectVersions response: the AWS SDK types both fields
as optional; the code reads version.Key and version.VersionId. -/
structure S3ObjectVersion where
  Key : String
  VersionId : Option String
deriving DecidableEq

/-- The shape of the ListObjectVersions response used by the code:
response.Versions is optional. -/
structure ListVersionsOutput where
  Versions : Option (List S3ObjectVersion)
deriving DecidableEq

/-- Outcome of the remote list-object-versions call: either the send throws
or it yields a response. -/
inductive ListOutcome where
  | failure (msg : String)
  | success (out : ListVersionsOutput)

/-- Client.getObjectMetadata: throws "S3Client not initialized" when the
client handle is null, otherwise sends a ListObjectVersionsCommand with the
object key as prefix and returns the response (client.ts lines 131-150). -/
def getObjectMetadata (s3Client : Option Unit) (remote : ListOutcome) (objectKey : String) :
    Except String ListVersionsOutput × List Ev :=
  match s3Client with
  | none => (.error "S3Client not initialized", [])
  | some _ =>
    match remote with
    | .failure m => (.error m, [.listRequest objectKey])
    | .success out => (.ok out, [.listRequest objectKey])

/-- The version-selection logic of Client.getLatestObjectVersion: filter the
listed versions to those whose Key equals the object key exactly, and return
the VersionId of entry 0 (VERSION_LATEST) when the filtered list is
non-empty, undefined otherwise (client.ts lines 100-120). -/
def latestFromListing (out : ListVersionsOutput) (objectKey : String) : Option String :=
  match (out.Versions.getD []).filter (fun v => v.Key == objectKey) with
  | [] => none
  | v :: _ => v.VersionId

/-- Client.getLatestObjectVersion: calls getObjectMetadata inside try/catch;
on failure the error is logged and rethrown; on success the exact-match
filtered first version id (possibly undefined) is returned
(client.ts lines 96-129). -/
def getLatestObjectVersion (s3Client : Option Unit) (remote : ListOutcome) (objectKey : String) :
    Except String (Option String) × List Ev :=
  match getObjectMetadata s3Client remote objectKey with
  | (.error e, tr) => (.error e, tr)
  | (.ok response, tr) => (.ok (latestFromListing response objectKey), tr)

/-- A browser ReadableStream as observed through its reader: the chunks it
delivers, and whether the reader reaches the done signal cleanly (clean =
false means a read rejects after the chunks). -/
structure BrowserStream where
  chunks : List (List Nat)
  clean : Bool
deriving DecidableEq

/-- The Node Readable produced by Client.browserStreamToReadable, together
with the handlers getObject attached to it: onEnd is the list of events the
stream's end handler fires (client.ts lines 174-181, 195-207). -/
structure ReadableModel where
  source : BrowserStream
  onEnd : List Ev
deriving DecidableEq

/-- Outcome of the remote GetObject call: the send throws, or the response
has no body, or it carries a browser stream as body. -/
inductive GetOutcome where
  | failure (msg : String)
  | noBody
  | body (stream : BrowserStream)

/-- Client.getObject (client.ts lines 152-193): fails fast when the client
handle is null; otherwise registers the download (addNewDownload), issues the
GetObject request, and on a body transitions the record to RUNNING and
returns the adapted stream whose end handler fires setCompletedState; when
the send throws or the response has no body, the catch block fires
setErrorState and rethrows. -/
def getObject (s3Client : Option Unit) (objectKey versionId : String) (remote : GetOutcome) :
    Except String ReadableModel × List Ev :=
  match s3Client with
  | none => (.error "S3Client not initialized", [])
  | some _ =>
    match remote with
    | .failure m =>
        (.error m,
         [.dmAdd (objectKey, versionId), .getRequest objectKey, .dmError (objectKey, versionId)])
    | .noBody =>
        (.error ("Failed to retrieve object " ++ objectKey ++ " from S3"),
         [.dmAdd (objectKey, versionId), .getRequest objectKey, .dmError (objectKey, versionId)])
    | .body bs =>
        (.ok ⟨bs, [.dmCompleted (objectKey, versionId)]⟩,
         [.dmAdd (objectKey, versionId), .getRequest objectKey, .dmRunning (objectKey, versionId)])

/-- Result of a consumer draining the adapted Readable. -/
inductive DrainResult where
  | drained (chunks : List (List Nat))
  | stalled
deriving DecidableEq

/-- Draining the Readable returned by getObject. The adapter's read callback
pushes each chunk and pushes null on done, which fires the end handlers; the
adapter installs no error handler and does not route a reader rejection to
the stream's error signalling, so when a read rejects the stream delivers
neither end nor error: the drain stalls and no handler events fire
(client.ts lines 178-180 and 195-207). -/
def drainReadable (s : ReadableModel) : DrainResult × List Ev :=
  if s.source.clean then (.drained s.source.chunks, s.onEnd)
  else (.stalled, [])

/-- Outcome of the remote presign call. -/
inductive SignOutcome where
  | failure (msg : String)
  | success (url : String)

/-- Client.getSignedUrlForObject (client.ts lines 209-235): fails fast when
the client handle is null; otherwise builds a GetObjectCommand and asks the
presigner for a signed URL; on failure the error is logged and rethrown.
No DownloadManager call appears in this method. -/
def getSignedUrlForObject (s3Client : Option Unit) (objectKey : String) (remote : SignOutcome) :
    Except String String × List Ev :=
  match s3Client with
  | none => (.error "S3Client not initialized", [])
  | some _ =>
    match remote with
    | .failure m => (.error m, [.signRequest objectKey])
    | .success url => (.ok url, [.signRequest objectKey])

/-- The link delimiter. Modelled from the spec: Config is not under src/;
the spec's scenarios use references of the form s3://photo.png and
s3-signed://doc.pdf with the marker as the part before the delimiter and the
object key as the part after it, so the delimiter is "://". -/
def linkSplitter : String := "://"

/-- The direct-link marker. Modelled from the spec: Config.S3_LINK_PREFIX is
not under src/; per the spec's scenarios it is "s3". -/
def directMarker : String := "s3"

/-- The signed-link marker. Modelled from the spec:
Config.S3_SIGNED_LINK_PREFIX is not under src/; per the spec's scenarios it
is "s3-signed". -/
def signedMarker : String := "s3-signed"

/-- JavaScript String.prototype.split on the fixed delimiter "://": scan left
to right, cut at each non-overlapping occurrence of the delimiter; a string
with no occurrence yields a single part. The accumulator holds the current
part's characters in reverse. -/
def splitOnDelim : List Char → List Char → List String
  | [], acc => [acc.reverse.asString]
  | ':' :: '/' :: '/' :: rest, acc => acc.reverse.asString :: splitOnDelim rest []
  | c :: rest, acc => splitOnDelim rest (c :: acc)

/-- imageElement.src.split(Config.S3_LINK_SPLITTER) (part_000 line 45). -/
def jsSplit (s : String) : List String :=
  splitOnDelim s.toList []

/-- One img element of the rendered tree: its identity and its src string. -/
structure Img where
  id : Nat
  src : String
deriving DecidableEq

/-- A key-to-elements map, insertion ordered. Keys are Option String because
the code passes parts[1] of the split, which is undefined when the split has
fewer than two parts. -/
abbrev KeyMap := List (Option String × List Img)

/-- Modelled from the spec: the Resolver base class (addObjectKey /
addSignObjectKey) is not under src/; per section 4.2 it appends the element
to the map's sequence for that key, creating the sequence if the key is new. -/
def addToMap : KeyMap → Option String → Img → KeyMap
  | [], k, e => [(k, [e])]
  | (k0, es) :: rest, k, e =>
    if k0 = k then (k0, es ++ [e]) :: rest else (k0, es) :: addToMap rest k e

/-- The resolver's two accumulated maps (Resolver base-class state). -/
structure ResolverMaps where
  objectKeys : KeyMap
  signObjectKeys : KeyMap
deriving DecidableEq

/-- Modelled from the spec: clearObjectKeys empties the direct map. -/
def clearObjectKeys : ResolverMaps → ResolverMaps
  | ⟨_, s⟩ => ⟨[], s⟩

/-- Modelled from the spec: clearSignObjectKeys empties the signed map. -/
def clearSignObjectKeys : ResolverMaps → ResolverMaps
  | ⟨o, _⟩ => ⟨o, []⟩

/-- Index of the marker part in the split (Resolver base field). -/
def s3LinkLeftPart : Nat := 0

/-- Index of the object-key part in the split (Resolver base field). -/
def s3LinkRightPart : Nat := 1

/-- The per-element body of the forEach in ImageResolver.resolveHtmlElement
(part_000 lines 44-67): split the src; if parts[0] equals the direct marker,
addObjectKey(parts[1], element); else if parts[0] equals the signed marker,
addSignObjectKey(parts[1], element); otherwise do nothing. -/
def resolveStep (acc : ResolverMaps) (e : Img) : ResolverMaps :=
  if (jsSplit e.src)[s3LinkLeftPart]? = some directMarker then
    ⟨addToMap acc.objectKeys (jsSplit e.src)[s3LinkRightPart]? e, acc.signObjectKeys⟩
  else if (jsSplit e.src)[s3LinkLeftPart]? = some signedMarker then
    ⟨acc.objectKeys, addToMap acc.signObjectKeys (jsSplit e.src)[s3LinkRightPart]? e⟩
  else acc

/-- ImageResolver.resolveHtmlElement (part_000 lines 19-73): clear both maps,
return them unchanged when the tree holds no img elements, otherwise process
each img element in document order and return the two maps. -/
def resolveHtmlElement (state : ResolverMaps) (imgs : List Img) : ResolverMaps :=
  let cleared := clearSignObjectKeys (clearObjectKeys state)
  if imgs.length = 0 then cleared
  else imgs.foldl resolveStep cleared

/-- An element qualifies when its split's first part equals one of the two
markers, i.e. the element is added to one of the maps by resolveStep. -/
def qualifies (e : Img) : Bool :=
  decide ((jsSplit e.src)[s3LinkLeftPart]? = some directMarker)
  || decide ((jsSplit e.src)[s3LinkLeftPart]? = some signedMarker)

/-- Number of occurrences of the element id in one sequence. -/
def countInList (es : List Img) (i : Nat) : Nat :=
  (es.filter (fun e => e.id == i)).length

/-- Number of occurrences of the element id across a whole map. -/
def countInMap (m : KeyMap) (i : Nat) : Nat :=
  (m.map (fun p => countInList p.2 i)).sum

/-- Number of occurrences of the element id across both output maps. -/
def totalCount (o : ResolverMaps) (i : Nat) : Nat :=
  countInMap o.objectKeys i + countInMap o.signObjectKeys i

theorem lookupState_append_fresh (r : Registry) (k : DownloadKey) (s : DownloadState)
    (h : lookupState r k = none) : lookupState (r ++ [(k, s)]) k = some s := by
  induction r with
  | nil => simp [lookupState]
  | cons p t ih =>
    obtain ⟨pk, ps⟩ := p
    by_cases hpk : pk = k
    · simp [lookupState, hpk] at h
    · simp only [lookupState, List.cons_append, if_neg hpk] at h ⊢
      exact ih h

theorem addNewDownload_fresh (r : Registry) (k : DownloadKey)
    (h : lookupState r k = none) : addNewDownload r k = r ++ [(k, .QUEUED)] := by
  unfold addNewDownload
  rw [h]

theorem lookupState_updateState (r : Registry) (k : DownloadKey)
    (f : DownloadState → DownloadState) :
    lookupState (updateState r k f) k = Option.map f (lookupState r k) := by
  induction r with
  | nil => rfl
  | cons p t ih =>
    obtain ⟨pk, ps⟩ := p
    simp only [updateState]
    by_cases hpk : pk = k
    · rw [if_pos hpk]
      simp only [lookupState]
      rw [if_pos hpk, if_pos hpk]
      rfl
    · rw [if_neg hpk]
      simp only [lookupState]
      rw [if_neg hpk, if_neg hpk]
      exact ih

theorem latestFromListing_eq_find (out : ListVersionsOutput) (objectKey : String) :
    latestFromListing out objectKey
      = ((out.Versions.getD []).find? (fun v => v.Key == objectKey)).bind S3ObjectVersion.VersionId := by
  unfold latestFromListing
  generalize out.Versions.getD [] = l
  induction l with
  | nil => rfl
  | cons a t ih =>
    cases h : (a.Key == objectKey) with
    | true => simp [List.filter_cons, List.find?, h]
    | false => simpa [List.filter_cons, List.find?, h] using ih

theorem countInList_append (es : List Img) (e : Img) (i : Nat) :
    countInList (es ++ [e]) i = countInList es i + (if e.id == i then 1 else 0) := by
  unfold countInList
  rw [List.filter_append]
  cases h : (e.id == i) <;> simp [h]

theorem countInMap_addToMap (m : KeyMap) (k : Option String) (e : Img) (i : Nat) :
    countInMap (addToMap m k e) i = countInMap m i + (if e.id == i then 1 else 0) := by
  induction m with
  | nil =>
    unfold addToMap countInMap countInList
    cases h : (e.id == i) <;> simp [h]
  | cons p t ih =>
    obtain ⟨k0, es⟩ := p
    simp only [addToMap]
    by_cases hk : k0 = k
    · rw [if_pos hk]
      simp only [countInMap, List.map_cons, List.sum_cons]
      rw [countInList_append]
      omega
    · rw [if_neg hk]
      simp only [countInMap, List.map_cons, List.sum_cons] at ih ⊢
      omega

theorem qualifies_false_iff (e : Img) :
    qualifies e = false ↔
      ((jsSplit e.src)[s3LinkLeftPart]? ≠ some directMarker ∧
       (jsSplit e.src)[s3LinkLeftPart]? ≠ some signedMarker) := by
  simp [qualifies]

theorem totalCount_resolveStep (acc : ResolverMaps) (e : Img) (i : Nat) :
    totalCount (resolveStep acc e) i
      = totalCount acc i + (if qualifies e && (e.id == i) then 1 else 0) := by
  simp only [resolveStep]
  by_cases h1 : (jsSplit e.src)[s3LinkLeftPart]? = some directMarker
  · rw [if_pos h1]
    have hq : qualifies e = true := by simp [qualifies, h1]
    rw [hq]
    simp only [totalCount, Bool.true_and]
    rw [countInMap_addToMap]
    omega
  · rw [if_neg h1]
    by_cases h2 : (jsSplit e.src)[s3LinkLeftPart]? = some signedMarker
    · rw [if_pos h2]
      have hq : qualifies e = true := by simp [qualifies, h2]
      rw [hq]
      simp only [totalCount, Bool.true_and]
      rw [countInMap_addToMap]
      omega
    · rw [if_neg h2]
      have hq : qualifies e = false := by simp [qualifies, h1, h2]
      rw [hq]
      simp

theorem totalCount_foldl (imgs : List Img) : ∀ (acc : ResolverMaps) (i : Nat),
    totalCount (imgs.foldl resolveStep acc) i
      = totalCount acc i + (imgs.filter (fun e => qualifies e && (e.id == i))).length := by
  induction imgs with
  | nil => intro acc i; simp
  | cons e t ih =>
    intro acc i
    simp only [List.foldl_cons, List.filter_cons]
    rw [ih, totalCount_resolveStep]
    cases h : (qualifies e && (e.id == i))
    · simp [h]
    · simp [h]
      omega

theorem totalCount_resolveHtmlElement (st : ResolverMaps) (imgs : List Img) (i : Nat) :
    totalCount (resolveHtmlElement st imgs) i
      = (imgs.filter (fun e => qualifies e && (e.id == i))).length := by
  obtain ⟨o, s⟩ := st
  simp only [resolveHtmlElement, clearObjectKeys, clearSignObjectKeys]
  by_cases h : imgs.length = 0
  · rw [if_pos h]
    rw [List.length_eq_zero.mp h]
    simp [totalCount, countInMap]
  · rw [if_neg h]
    rw [totalCount_foldl]
    simp [totalCount, countInMap]

theorem resolveStep_unqualified (acc : ResolverMaps) (e : Img) (h : qualifies e = false) :
    resolveStep acc e = acc := by
  rw [qualifies_false_iff] at h
  simp only [resolveStep]
  rw [if_neg h.1, if_neg h.2]

theorem foldl_unqualified (imgs : List Img) :
    ∀ acc, (∀ e ∈ imgs, qualifies e = false) → imgs.foldl resolveStep acc = acc := by
  induction imgs with
  | nil => intro acc _; rfl
  | cons e t ih =>
    intro acc h
    simp only [List.foldl_cons]
    rw [resolveStep_unqualified acc e (h e (by simp))]
    exact ih acc (fun x hx => h x (by simp [hx]))

theorem resolveStep_direct (acc : ResolverMaps) (e : Img) (k : String)
    (h : jsSplit e.src = [directMarker, k]) :
    resolveStep acc e = ⟨addToMap acc.objectKeys (some k) e, acc.signObjectKeys⟩ := by
  simp only [resolveStep, h]
  rw [if_pos (show ([directMarker, k] : List String)[s3LinkLeftPart]? = some directMarker from rfl)]
  rfl

theorem foldl_samekey (k : String)
    (hsplit : jsSplit (directMarker ++ linkSplitter ++ k) = [directMarker, k]) :
    ∀ (imgs : List Img) (es : List Img),
      (∀ e ∈ imgs, e.src = directMarker ++ linkSplitter ++ k) →
      imgs.foldl resolveStep ⟨[(some k, es)], []⟩ = ⟨[(some k, es ++ imgs)], []⟩ := by
  intro imgs
  induction imgs with
  | nil => intro es _; simp
  | cons e t ih =>
    intro es h
    simp only [List.foldl_cons]
    rw [resolveStep_direct _ e k (by rw [h e (by simp)]; exact hsplit)]
    have hadd : addToMap [(some k, es)] (some k) e = [(some k, es ++ [e])] := by
      simp [addToMap]
    simp only [hadd]
    rw [ih (es ++ [e]) (fun x hx => h x (by simp [hx]))]
    simp

/-- C1: for every object key, getLatestObjectVersion considers only listed
versions whose key is exactly equal to the requested key — prefix matches
such as key "a/b" when "a" is requested are excluded — and returns the
version id of the first such exact match, or an absent value (not an
exception) when no exact match exists; concretely, with versions for "a/b"
and "a", requesting "a" yields the version of "a". -/
theorem C1_exact_version_resolution (out : ListVersionsOutput) (objectKey : String) :
    (getLatestObjectVersion (some ()) (.success out) objectKey).1
        = .ok (((out.Versions.getD []).find? (fun v => v.Key == objectKey)).bind
            S3ObjectVersion.VersionId) ∧
    (getLatestObjectVersion (some ())
        (.success ⟨some [⟨"a/b", some "v1"⟩, ⟨"a", some "v2"⟩]⟩) "a").1 = .ok (some "v2") := by
  constructor
  · show Except.ok (latestFromListing out objectKey) = _
    rw [latestFromListing_eq_find]
  · rfl

/-- C5: every public protocol operation of the client — version resolution,
object fetch, and signed-URL generation — fails fast with the precondition
error "S3Client not initialized" when the underlying client is null, with an
empty trace: no coordinator call and no remote request is attempted. -/
theorem C5_uninitialized_fails_fast (objectKey versionId : String)
    (lr : ListOutcome) (gr : GetOutcome) (sr : SignOutcome) :
    getLatestObjectVersion none lr objectKey = (.error "S3Client not initialized", []) ∧
    getObject none objectKey versionId gr = (.error "S3Client not initialized", []) ∧
    getSignedUrlForObject none objectKey sr = (.error "S3Client not initialized", []) :=
  ⟨rfl, rfl, rfl⟩

/-- C9: generating a signed URL never interacts with the download
coordinator: whatever the client state and the outcome of the presign call,
the trace of getSignedUrlForObject holds no coordinator event, and applying
it to any registry leaves the registry unchanged. -/
theorem C9_sign_no_coordinator_interaction (objectKey : String) (sr : SignOutcome)
    (c : Option Unit) (r : Registry) :
    (getSignedUrlForObject c objectKey sr).2.filter isDmEv = [] ∧
    applyTrace r (getSignedUrlForObject c objectKey sr).2 = r := by
  cases c <;> cases sr <;> simp [getSignedUrlForObject, isDmEv, applyTrace, applyEv]

/-- C10: calling getObject while the client is uninitialized raises the
precondition failure before any coordinator interaction: the trace is empty,
so no record is created, no record is transitioned, and the registry —
including the record for the requested (key, versionId) — is unchanged. -/
theorem C10_uninitialized_getObject_registry_frame (objectKey versionId : String)
    (remote : GetOutcome) (r : Registry) :
    (getObject none objectKey versionId remote).1 = .error "S3Client not initialized" ∧
    (getObject none objectKey versionId remote).2 = [] ∧
    applyTrace r (getObject none objectKey versionId remote).2 = r ∧
    lookupState (applyTrace r (getObject none objectKey versionId remote).2)
        (objectKey, versionId) = lookupState r (objectKey, versionId) :=
  ⟨rfl, rfl, rfl, rfl⟩

/-- C2: a successful fetch of (key, versionId) via getObject on an
initialized client registers the attempt with the coordinator before the
remote request (dmAdd precedes getRequest in the trace), transitions the
record to RUNNING once the response body is present, and when the returned
stream is fully drained the end handler transitions it to COMPLETED — the
record passes through QUEUED, RUNNING, COMPLETED in that order. -/
theorem C2_success_lifecycle (objectKey versionId : String) (bs : BrowserStream)
    (r0 : Registry) (hfresh : lookupState r0 (objectKey, versionId) = none)
    (hclean : bs.clean = true) :
    (getObject (some ()) objectKey versionId (.body bs)).1
        = .ok ⟨bs, [.dmCompleted (objectKey, versionId)]⟩ ∧
    (getObject (some ()) objectKey versionId (.body bs)).2
        = [.dmAdd (objectKey, versionId), .getRequest objectKey,
           .dmRunning (objectKey, versionId)] ∧
    lookupState (applyTrace r0 [.dmAdd (objectKey, versionId)]) (objectKey, versionId)
        = some .QUEUED ∧
    lookupState (applyTrace r0 (getObject (some ()) objectKey versionId (.body bs)).2)
        (objectKey, versionId) = some .RUNNING ∧
    (drainReadable ⟨bs, [.dmCompleted (objectKey, versionId)]⟩).2
        = [.dmCompleted (objectKey, versionId)] ∧
    lookupState
        (applyTrace r0 ((getObject (some ()) objectKey versionId (.body bs)).2
          ++ (drainReadable ⟨bs, [.dmCompleted (objectKey, versionId)]⟩).2))
        (objectKey, versionId) = some .COMPLETED := by
  have hadd := addNewDownload_fresh r0 (objectKey, versionId) hfresh
  have hq : lookupState (addNewDownload r0 (objectKey, versionId)) (objectKey, versionId)
      = some .QUEUED := by
    rw [hadd]
    exact lookupState_append_fresh r0 (objectKey, versionId) .QUEUED hfresh
  refine ⟨rfl, rfl, ?_, ?_, ?_, ?_⟩
  · exact hq
  · show lookupState (setRunningState (addNewDownload r0 (objectKey, versionId))
        (objectKey, versionId)) (objectKey, versionId) = some .RUNNING
    rw [setRunningState, lookupState_updateState, hq]
    rfl
  · simp [drainReadable, hclean]
  · show lookupState
        (applyTrace r0 ([.dmAdd (objectKey, versionId), .getRequest objectKey,
          .dmRunning (objectKey, versionId)]
          ++ (drainReadable ⟨bs, [.dmCompleted (objectKey, versionId)]⟩).2))
        (objectKey, versionId) = some .COMPLETED
    have hdr : (drainReadable ⟨bs, [.dmCompleted (objectKey, versionId)]⟩).2
        = [.dmCompleted (objectKey, versionId)] := by
      simp [drainReadable, hclean]
    rw [hdr]
    show lookupState (setCompletedState (setRunningState
        (addNewDownload r0 (objectKey, versionId)) (objectKey, versionId))
        (objectKey, versionId)) (objectKey, versionId) = some .COMPLETED
    rw [setCompletedState, lookupState_updateState, setRunningState,
      lookupState_updateState, hq]
    rfl

/-- Witness for C2 at a concrete input: empty registry, key "k", version
"v", a clean one-chunk stream. -/
theorem C2_success_lifecycle_witness :
    lookupState ([] : Registry) ("k", "v") = none ∧
    (BrowserStream.mk [[1, 2]] true).clean = true ∧
    ((getObject (some ()) "k" "v" (.body ⟨[[1, 2]], true⟩)).1
        = .ok ⟨⟨[[1, 2]], true⟩, [.dmCompleted ("k", "v")]⟩ ∧
      (getObject (some ()) "k" "v" (.body ⟨[[1, 2]], true⟩)).2
        = [.dmAdd ("k", "v"), .getRequest "k", .dmRunning ("k", "v")] ∧
      lookupState (applyTrace [] [.dmAdd ("k", "v")]) ("k", "v") = some .QUEUED ∧
      lookupState (applyTrace [] (getObject (some ()) "k" "v" (.body ⟨[[1, 2]], true⟩)).2)
        ("k", "v") = some .RUNNING ∧
      (drainReadable ⟨⟨[[1, 2]], true⟩, [.dmCompleted ("k", "v")]⟩).2
        = [.dmCompleted ("k", "v")] ∧
      lookupState
        (applyTrace [] ((getObject (some ()) "k" "v" (.body ⟨[[1, 2]], true⟩)).2
          ++ (drainReadable ⟨⟨[[1, 2]], true⟩, [.dmCompleted ("k", "v")]⟩).2))
        ("k", "v") = some .COMPLETED) :=
  ⟨rfl, rfl, C2_success_lifecycle "k" "v" ⟨[[1, 2]], true⟩ [] rfl rfl⟩

/-- C3: when getObject on an initialized client meets a failing remote call
or a response without body, the download record for (key, versionId) is
transitioned to ERROR and the failure is raised to the caller: the result is
an error, never a normal return. -/
theorem C3_failure_marks_error (objectKey versionId : String) (r0 : Registry)
    (remote : GetOutcome)
    (hfail : remote = .noBody ∨ ∃ m, remote = .failure m)
    (hfresh : lookupState r0 (objectKey, versionId) = none) :
    (∃ e, (getObject (some ()) objectKey versionId remote).1 = .error e) ∧
    (getObject (some ()) objectKey versionId remote).2
        = [.dmAdd (objectKey, versionId), .getRequest objectKey,
           .dmError (objectKey, versionId)] ∧
    lookupState (applyTrace r0 (getObject (some ()) objectKey versionId remote).2)
        (objectKey, versionId) = some .ERROR := by
  have hq : lookupState (addNewDownload r0 (objectKey, versionId)) (objectKey, versionId)
      = some .QUEUED := by
    rw [addNewDownload_fresh r0 (objectKey, versionId) hfresh]
    exact lookupState_append_fresh r0 (objectKey, versionId) .QUEUED hfresh
  have hstate : lookupState (setErrorState (addNewDownload r0 (objectKey, versionId))
      (objectKey, versionId)) (objectKey, versionId) = some .ERROR := by
    rw [setErrorState, lookupState_updateState, hq]
    rfl
  rcases hfail with h | ⟨m, h⟩ <;> subst h
  · exact ⟨⟨"Failed to retrieve object " ++ objectKey ++ " from S3", rfl⟩, rfl, hstate⟩
  · exact ⟨⟨m, rfl⟩, rfl, hstate⟩

/-- Witness for C3 at a concrete input: empty registry, key "k", version
"v", a response without body. -/
theorem C3_failure_marks_error_witness :
    (GetOutcome.noBody = GetOutcome.noBody ∨ ∃ m, GetOutcome.noBody = .failure m) ∧
    lookupState ([] : Registry) ("k", "v") = none ∧
    ((∃ e, (getObject (some ()) "k" "v" .noBody).1 = .error e) ∧
      (getObject (some ()) "k" "v" .noBody).2
        = [.dmAdd ("k", "v"), .getRequest "k", .dmError ("k", "v")] ∧
      lookupState (applyTrace [] (getObject (some ()) "k" "v" .noBody).2) ("k", "v")
        = some .ERROR) :=
  ⟨Or.inl rfl, rfl, C3_failure_marks_error "k" "v" [] .noBody (Or.inl rfl) rfl⟩

/-- Counterexample to C4 as stated: at the concrete fetch of ("k", "v")
whose response body delivers one chunk and then the reader rejects, the
drain of the returned stream stalls, fires no events, and the download
record is left in RUNNING — not transitioned to ERROR — because getObject
attaches only an end handler and the adapter routes read rejections
nowhere. -/
theorem C4_counterexample_drain_failure_not_error :
    (getObject (some ()) "k" "v" (.body ⟨[[7]], false⟩)).1
        = .ok ⟨⟨[[7]], false⟩, [.dmCompleted ("k", "v")]⟩ ∧
    (drainReadable ⟨⟨[[7]], false⟩, [.dmCompleted ("k", "v")]⟩).1 = .stalled ∧
    (drainReadable ⟨⟨[[7]], false⟩, [.dmCompleted ("k", "v")]⟩).2 = [] ∧
    lookupState
        (applyTrace [] ((getObject (some ()) "k" "v" (.body ⟨[[7]], false⟩)).2
          ++ (drainReadable ⟨⟨[[7]], false⟩, [.dmCompleted ("k", "v")]⟩).2)) ("k", "v")
        = some .RUNNING ∧
    lookupState
        (applyTrace [] ((getObject (some ()) "k" "v" (.body ⟨[[7]], false⟩)).2
          ++ (drainReadable ⟨⟨[[7]], false⟩, [.dmCompleted ("k", "v")]⟩).2)) ("k", "v")
        ≠ some .ERROR :=
  ⟨rfl, rfl, rfl, by decide, by decide⟩

/-- C4 amended: a failure that occurs while draining the returned byte
stream after a successful initial response performs no coordinator
transition — the record stays RUNNING, it is never moved to ERROR — and the
consumer observes no error signal from the stream either: the drain stalls,
because the adapter installs no error handler and getObject attaches only
an end handler. -/
theorem C4_drain_failure_leaves_running (objectKey versionId : String)
    (bs : BrowserStream) (r0 : Registry)
    (hfresh : lookupState r0 (objectKey, versionId) = none)
    (hdirty : bs.clean = false) :
    (getObject (some ()) objectKey versionId (.body bs)).1
        = .ok ⟨bs, [.dmCompleted (objectKey, versionId)]⟩ ∧
    (drainReadable ⟨bs, [.dmCompleted (objectKey, versionId)]⟩).1 = .stalled ∧
    (drainReadable ⟨bs, [.dmCompleted (objectKey, versionId)]⟩).2 = [] ∧
    lookupState
        (applyTrace r0 ((getObject (some ()) objectKey versionId (.body bs)).2
          ++ (drainReadable ⟨bs, [.dmCompleted (objectKey, versionId)]⟩).2))
        (objectKey, versionId) = some .RUNNING := by
  have hq : lookupState (addNewDownload r0 (objectKey, versionId)) (objectKey, versionId)
      = some .QUEUED := by
    rw [addNewDownload_fresh r0 (objectKey, versionId) hfresh]
    exact lookupState_append_fresh r0 (objectKey, versionId) .QUEUED hfresh
  have hdr : (drainReadable ⟨bs, [.dmCompleted (objectKey, versionId)]⟩).2 = [] := by
    simp [drainReadable, hdirty]
  refine ⟨rfl, by simp [drainReadable, hdirty], hdr, ?_⟩
  rw [hdr]
  show lookupState (setRunningState (addNewDownload r0 (objectKey, versionId))
      (objectKey, versionId)) (objectKey, versionId) = some .RUNNING
  rw [setRunningState, lookupState_updateState, hq]
  rfl

/-- Witness for the amended C4 at a concrete input: empty registry, key
"k", version "v", a stream whose reader rejects after one chunk. -/
theorem C4_drain_failure_leaves_running_witness :
    lookupState ([] : Registry) ("k", "v") = none ∧
    (BrowserStream.mk [[7]] false).clean = false ∧
    ((getObject (some ()) "k" "v" (.body ⟨[[7]], false⟩)).1
        = .ok ⟨⟨[[7]], false⟩, [.dmCompleted ("k", "v")]⟩ ∧
      (drainReadable ⟨⟨[[7]], false⟩, [.dmCompleted ("k", "v")]⟩).1 = .stalled ∧
      (drainReadable ⟨⟨[[7]], false⟩, [.dmCompleted ("k", "v")]⟩).2 = [] ∧
      lookupState
        (applyTrace [] ((getObject (some ()) "k" "v" (.body ⟨[[7]], false⟩)).2
          ++ (drainReadable ⟨⟨[[7]], false⟩, [.dmCompleted ("k", "v")]⟩).2)) ("k", "v")
        = some .RUNNING) :=
  ⟨rfl, rfl, C4_drain_failure_leaves_running "k" "v" ⟨[[7]], false⟩ [] rfl rfl⟩

/-- Counterexample to C6 as stated: the reference "s3" splits into a single
part (fewer than two), yet the resolver does not treat it as UNRELATED — the
single part equals the direct marker, so the element is added to the direct
map under an undefined (absent) key. -/
theorem C6_counterexample_marker_alone :
    (jsSplit "s3").length < 2 ∧
    resolveHtmlElement ⟨[], []⟩ [⟨0, "s3"⟩] = ⟨[(none, [⟨0, "s3"⟩])], []⟩ ∧
    totalCount (resolveHtmlElement ⟨[], []⟩ [⟨0, "s3"⟩]) 0 = 1 :=
  ⟨by decide, by decide, by decide⟩

/-- C6 amended: a reference string that splits into fewer than two parts and
whose single part equals neither marker is classified UNRELATED and its
element is added to neither map; when the single part equals a marker the
element is instead added to that marker's map under an undefined key. -/
theorem C6_short_split_unrelated (st : ResolverMaps) (imgs : List Img) (i : Nat)
    (h : ∀ e ∈ imgs, e.id = i →
      (jsSplit e.src).length < 2 ∧
      (jsSplit e.src)[s3LinkLeftPart]? ≠ some directMarker ∧
      (jsSplit e.src)[s3LinkLeftPart]? ≠ some signedMarker) :
    totalCount (resolveHtmlElement st imgs) i = 0 := by
  rw [totalCount_resolveHtmlElement, List.length_eq_zero, List.filter_eq_nil_iff]
  intro e he
  by_cases hid : e.id = i
  · obtain ⟨_, h1, h2⟩ := h e he hid
    have hq : qualifies e = false := (qualifies_false_iff e).mpr ⟨h1, h2⟩
    simp [hq]
  · simp [hid]

/-- Witness for the amended C6 at a concrete input: a one-element tree whose
src "plain.png" splits into one part equal to neither marker yields empty
output. -/
theorem C6_short_split_unrelated_witness :
    (∀ e ∈ ([⟨0, "plain.png"⟩] : List Img), e.id = 0 →
      (jsSplit e.src).length < 2 ∧
      (jsSplit e.src)[s3LinkLeftPart]? ≠ some directMarker ∧
      (jsSplit e.src)[s3LinkLeftPart]? ≠ some signedMarker) ∧
    totalCount (resolveHtmlElement ⟨[], []⟩ [⟨0, "plain.png"⟩]) 0 = 0 :=
  ⟨by decide, C6_short_split_unrelated ⟨[], []⟩ [⟨0, "plain.png"⟩] 0 (by decide)⟩

/-- C7: in the resolver's output every element occurrence is counted exactly
once across both maps when it qualifies and zero times otherwise (so each
element appears in at most one map, under one key, once per occurrence in
the tree); and N elements all referencing the same key produce a single
entry for that key holding exactly those N element references in document
order. -/
theorem C7_occurrence_partition (st : ResolverMaps) (imgs : List Img) (k : String)
    (hsrc : ∀ e ∈ imgs, e.src = directMarker ++ linkSplitter ++ k)
    (hsplit : jsSplit (directMarker ++ linkSplitter ++ k) = [directMarker, k])
    (hne : imgs ≠ []) :
    (∀ (st2 : ResolverMaps) (l : List Img) (i : Nat),
        totalCount (resolveHtmlElement st2 l) i
          = (l.filter (fun e => qualifies e && (e.id == i))).length) ∧
    resolveHtmlElement st imgs = ⟨[(some k, imgs)], []⟩ := by
  refine ⟨fun st2 l i => totalCount_resolveHtmlElement st2 l i, ?_⟩
  obtain ⟨o, s⟩ := st
  cases imgs with
  | nil => exact absurd rfl hne
  | cons e t =>
    simp only [resolveHtmlElement, clearObjectKeys, clearSignObjectKeys]
    rw [if_neg (by simp)]
    simp only [List.foldl_cons]
    rw [resolveStep_direct _ e k (by rw [hsrc e (by simp)]; exact hsplit)]
    exact foldl_samekey k hsplit t [e] (fun x hx => hsrc x (by simp [hx]))

/-- Witness for C7 at a concrete input: two img elements referencing
"photo.png" produce one direct-map entry with both references in order. -/
theorem C7_occurrence_partition_witness :
    (∀ e ∈ ([⟨0, "s3://photo.png"⟩, ⟨1, "s3://photo.png"⟩] : List Img),
        e.src = directMarker ++ linkSplitter ++ "photo.png") ∧
    jsSplit (directMarker ++ linkSplitter ++ "photo.png") = [directMarker, "photo.png"] ∧
    ([⟨0, "s3://photo.png"⟩, ⟨1, "s3://photo.png"⟩] : List Img) ≠ [] ∧
    ((∀ (st2 : ResolverMaps) (l : List Img) (i : Nat),
        totalCount (resolveHtmlElement st2 l) i
          = (l.filter (fun e => qualifies e && (e.id == i))).length) ∧
      resolveHtmlElement ⟨[], []⟩ ([⟨0, "s3://photo.png"⟩, ⟨1, "s3://photo.png"⟩] : List Img)
        = ⟨[(some "photo.png", [⟨0, "s3://photo.png"⟩, ⟨1, "s3://photo.png"⟩])], []⟩) :=
  ⟨by decide, by decide, by decide,
    C7_occurrence_partition ⟨[], []⟩ [⟨0, "s3://photo.png"⟩, ⟨1, "s3://photo.png"⟩]
      "photo.png" (by decide) (by decide) (by decide)⟩

/-- C8: each call to resolveHtmlElement clears the previously accumulated
maps before processing, so its output is independent of the resolver's prior
state; and on a tree with zero qualifying img elements it returns two empty
maps. -/
theorem C8_cleared_state_independence (st : ResolverMaps) (imgs : List Img)
    (hnq : ∀ e ∈ imgs, qualifies e = false) :
    (∀ (a b : ResolverMaps) (l : List Img),
        resolveHtmlElement a l = resolveHtmlElement b l) ∧
    resolveHtmlElement st imgs = ⟨[], []⟩ := by
  constructor
  · intro a b l
    obtain ⟨a1, a2⟩ := a
    obtain ⟨b1, b2⟩ := b
    rfl
  · obtain ⟨o, s⟩ := st
    simp only [resolveHtmlElement, clearObjectKeys, clearSignObjectKeys]
    by_cases h : imgs.length = 0
    · rw [if_pos h]
    · rw [if_neg h]
      exact foldl_unqualified imgs ⟨[], []⟩ hnq

/-- Witness for C8 at a concrete input: a non-empty prior state and a
one-element tree with an unrelated reference yield two empty maps. -/
theorem C8_cleared_state_independence_witness :
    (∀ e ∈ ([⟨0, "plain.png"⟩] : List Img), qualifies e = false) ∧
    ((∀ (a b : ResolverMaps) (l : List Img),
        resolveHtmlElement a l = resolveHtmlElement b l) ∧
      resolveHtmlElement ⟨[(some "a", [⟨5, "s3://a"⟩])], []⟩ [⟨0, "plain.png"⟩] = ⟨[], []⟩) :=
  ⟨by decide,
    C8_cleared_state_independence ⟨[(some "a", [⟨5, "s3://a"⟩])], []⟩ [⟨0, "plain.png"⟩]
      (by decide)⟩
